import Mathlib

/-!
OpenGLWorker (app/render/backend/opengl/openglworker.cpp).

A shallow embedding of the render worker.  Every member function of the
worker becomes a function from the worker's fields to either a fault
(undefined behaviour in the C++ source: a null or dangling dereference, a
second delete) or the new fields together with the list of calls the function
made on its collaborators, in program order.

Collaborators declared outside this translation unit (nodes, the rendering
parameters, the framebuffer utility, the Qt context) are kept abstract: a call
on them is recorded as an event, and a value they return that the worker
branches on is an argument of the embedded function.
-/

namespace Olive

/-- A node of the graph, identified by its address. -/
abbrev Node := Nat

/-- The output of a node; `parent` is the result of `NodeOutput::parent()`. -/
structure NodeOutput where
  parent : Node
  deriving DecidableEq, Repr

/-- A dependency path; `node` is the result of `NodeDependency::node()`. -/
structure NodeDependency where
  node : NodeOutput
  deriving DecidableEq, Repr

/-- The part of the node graph the worker can observe.  `GetDependencies` is
the result of `Node::GetDependencies()`, which is declared in node/node.h;
`inputs` lists, for every node, its inputs: `none` for an unconnected input,
`some m` for an input connected to the output of node `m`. -/
structure Graph where
  GetDependencies : Node → List Node
  inputs : Node → List (Option Node)

/-- The rendering parameters.  The class is declared outside this file; the
fields are the results of the three observers the worker calls on it. -/
structure VideoRenderingParams where
  is_valid : Bool
  effective_width : Int
  effective_height : Int
  deriving DecidableEq, Repr

/-- The value of the `ctx_` member: `null` is `nullptr`, `live` points to a
context object that exists, `dangling` is the value left in the member after
`delete ctx_` (the member is not reassigned by the delete). -/
inductive CtxPtr where
  | null
  | live
  | dangling
  deriving DecidableEq, Repr

/-- The function table returned by `QOpenGLContext::functions()`. -/
inductive QOpenGLFunctions where
  | table
  deriving DecidableEq, Repr

/-- The GL capability constant `GL_BLEND`. -/
def GL_BLEND : Nat := 0x0BE2

/-- The methods the worker can queue on itself. -/
inductive Slot where
  | FinishInit
  deriving DecidableEq, Repr

/-- The calls the worker makes on its collaborators. -/
inductive Event where
  | LockUserInput (n : Node)
  | UnlockUserInput (n : Node)
  | LockProcessing (n : Node)
  | UnlockProcessing (n : Node)
  | glFlush
  | glFinish
  | glEnable (cap : Nat)
  | glViewport (x y w h : Int)
  | bufferCreate
  | bufferDestroy
  | newContext
  | setShareContext
  | create (ok : Bool)
  | moveToThread
  | makeCurrent (ok : Bool)
  | deleteContext
  | invokeQueued (s : Slot)
  | qWarning
  | qDebug
  deriving DecidableEq, Repr

/-- Undefined behaviour the source can run into. -/
inductive Fault where
  | nullDeref
  | danglingDeref
  | doubleDelete
  deriving DecidableEq, Repr

/-- The fields of `OpenGLWorker` that its member functions read or write.
`buffer_` is true when the resource buffer has been created and not
destroyed since. -/
structure OpenGLWorker where
  ctx_ : CtxPtr
  functions_ : Option QOpenGLFunctions
  video_params_ : VideoRenderingParams
  buffer_ : Bool
  deriving DecidableEq, Repr

/-- What a member function returns: a fault, or the worker afterwards and the
calls made. -/
abbrev Run := Except Fault (OpenGLWorker × List Event)

/-- The constructor: `ctx_(nullptr)`, `functions_(nullptr)`. -/
def OpenGLWorker.new (p : VideoRenderingParams) : OpenGLWorker :=
  { ctx_ := CtxPtr.null, functions_ := none, video_params_ := p, buffer_ := false }

/-- `OpenGLWorker::IsStarted`: `return ctx_ != nullptr;`. -/
def IsStarted (w : OpenGLWorker) : Bool :=
  w.ctx_ != CtxPtr.null

/-- `OpenGLWorker::SetParameters`: `video_params_ = video_params;`. -/
def SetParameters (video_params : VideoRenderingParams) (w : OpenGLWorker) : Run :=
  Except.ok ({ w with video_params_ := video_params }, [])

/-- `OpenGLWorker::Close`: destroy the buffer, clear `functions_`, then
`delete ctx_`.  Deleting a null pointer does nothing; deleting a pointer whose
object was already deleted is a fault.  The member `ctx_` keeps its value. -/
def Close (w : OpenGLWorker) : Run :=
  let w1 := { w with buffer_ := false }
  let w2 := { w1 with functions_ := none }
  match w2.ctx_ with
  | CtxPtr.null => Except.ok (w2, [Event.bufferDestroy])
  | CtxPtr.live => Except.ok ({ w2 with ctx_ := CtxPtr.dangling }, [Event.bufferDestroy, Event.deleteContext])
  | CtxPtr.dangling => Except.error Fault.doubleDelete

/-- `OpenGLWorker::Init`; `createOk` is the value returned by `ctx_->create()`. -/
def Init (createOk : Bool) (w : OpenGLWorker) : Run :=
  let w1 := { w with ctx_ := CtxPtr.live }
  let t1 := [Event.newContext, Event.setShareContext, Event.create createOk]
  if !createOk then
    match Close w1 with
    | Except.error e => Except.error e
    | Except.ok (w2, t2) => Except.ok (w2, t1 ++ [Event.qWarning] ++ t2)
  else
    Except.ok (w1, t1 ++ [Event.moveToThread, Event.qDebug, Event.invokeQueued Slot.FinishInit])

/-- `OpenGLWorker::RenderAsSibling`: lock the destination node for processing
and unlock it again; the body in between is comments only. -/
def RenderAsSibling (dep : NodeDependency) : List Event :=
  let output := dep.node
  let node := output.parent
  [Event.LockProcessing node, Event.UnlockProcessing node]

/-- `OpenGLWorker::Render`.  `functions_->glFlush()` dereferences
`functions_`, a fault when it is null. -/
def Render (g : Graph) (path : NodeDependency) (w : OpenGLWorker) : Run :=
  let output := path.node
  let node := output.parent
  let all_nodes_in_graph := [node] ++ g.GetDependencies node
  let locks := all_nodes_in_graph.map Event.LockUserInput
  let traversal := RenderAsSibling path
  match w.functions_ with
  | none => Except.error Fault.nullDeref
  | some _ =>
    let unlocks := all_nodes_in_graph.map Event.UnlockUserInput
    Except.ok (w, locks ++ traversal ++ [Event.glFlush] ++ unlocks ++ [Event.glFinish])

/-- `OpenGLWorker::UpdateViewportFromParams`. -/
def UpdateViewportFromParams (w : OpenGLWorker) : List Event :=
  if w.functions_ != none && w.video_params_.is_valid then
    [Event.glViewport 0 0 w.video_params_.effective_width w.video_params_.effective_height]
  else
    []

/-- `OpenGLWorker::FinishInit`; `makeCurrentOk` is the value returned by
`ctx_->makeCurrent(&surface_)`.  The call dereferences `ctx_`. -/
def FinishInit (makeCurrentOk : Bool) (w : OpenGLWorker) : Run :=
  match w.ctx_ with
  | CtxPtr.null => Except.error Fault.nullDeref
  | CtxPtr.dangling => Except.error Fault.danglingDeref
  | CtxPtr.live =>
    if !makeCurrentOk then
      Except.ok (w, [Event.makeCurrent false, Event.qWarning])
    else
      let w1 := { w with functions_ := some QOpenGLFunctions.table }
      let t1 := [Event.glEnable GL_BLEND]
      let t2 := UpdateViewportFromParams w1
      let w2 := { w1 with buffer_ := true }
      Except.ok (w2, [Event.makeCurrent true] ++ t1 ++ t2 ++ [Event.bufferCreate, Event.qDebug])

/-- Run `f`, then `k` on the worker it leaves, concatenating the calls. -/
def Run.andThen (f : Run) (k : OpenGLWorker → Run) : Run :=
  match f with
  | Except.error e => Except.error e
  | Except.ok (w, t) =>
    match k w with
    | Except.error e => Except.error e
    | Except.ok (w2, t2) => Except.ok (w2, t ++ t2)

/-! Predicates on events and traces. -/

/-- A call on the GL function table. -/
def Event.isGL : Event → Bool
  | Event.glFlush => true
  | Event.glFinish => true
  | Event.glEnable _ => true
  | Event.glViewport _ _ _ _ => true
  | _ => false

/-- A `glViewport` call. -/
def Event.isViewport : Event → Bool
  | Event.glViewport _ _ _ _ => true
  | _ => false

/-- A call on a user-input lock. -/
def Event.isUserInput : Event → Bool
  | Event.LockUserInput _ => true
  | Event.UnlockUserInput _ => true
  | _ => false

/-- A call on a processing lock. -/
def Event.isProcessing : Event → Bool
  | Event.LockProcessing _ => true
  | Event.UnlockProcessing _ => true
  | _ => false

/-- The phase of a render an event belongs to: 0 acquiring user-input locks,
1 traversal, 2 flush, 3 releasing user-input locks, 4 finish, 5 anything
else. -/
def Event.phase : Event → Nat
  | Event.LockUserInput _ => 0
  | Event.LockProcessing _ => 1
  | Event.UnlockProcessing _ => 1
  | Event.glFlush => 2
  | Event.UnlockUserInput _ => 3
  | Event.glFinish => 4
  | _ => 5

/-- Every event of phase `a` stands before every event of phase `b`. -/
def AllBefore (a b : Nat) (tr : List Event) : Prop :=
  tr.Pairwise (fun x y => ¬ (x.phase = b ∧ y.phase = a))

/-- The number of processing locks this worker holds on each node after the
calls of `tr`, starting from `held`. -/
def replayProcessing (held : Node → Nat) : List Event → Node → Nat
  | [] => held
  | Event.LockProcessing n :: tr =>
      replayProcessing (fun m => if m = n then held m + 1 else held m) tr
  | Event.UnlockProcessing n :: tr =>
      replayProcessing (fun m => if m = n then held m - 1 else held m) tr
  | _ :: tr => replayProcessing held tr

/-- The graph of the fan-out scenario: node 0 (B) has two inputs, connected
to the outputs of node 1 (C) and node 2 (D), which have no inputs. -/
def fanGraph : Graph where
  GetDependencies := fun n => if n = 0 then [1, 2] else []
  inputs := fun n => if n = 0 then [some 1, some 2] else []

/-- The path whose destination is node `n`. -/
def pathTo (n : Node) : NodeDependency := { node := { parent := n } }

/-- Some valid rendering parameters: 1920 by 1080. -/
def hdParams : VideoRenderingParams :=
  { is_valid := true, effective_width := 1920, effective_height := 1080 }

/-- Other valid rendering parameters: 1280 by 720. -/
def sdParams : VideoRenderingParams :=
  { is_valid := true, effective_width := 1280, effective_height := 720 }

/-- A worker whose context was created but whose second phase has not run. -/
def createdWorker : OpenGLWorker :=
  { ctx_ := CtxPtr.live, functions_ := none, video_params_ := hdParams, buffer_ := false }

/-- A worker after both phases of initialisation succeeded. -/
def readyWorker : OpenGLWorker :=
  { ctx_ := CtxPtr.live, functions_ := some QOpenGLFunctions.table, video_params_ := hdParams, buffer_ := true }

/-! Counting lock calls in the two loops of `Render`. -/

theorem count_lock_in_locks (l : List Node) (n : Node) :
    (l.map Event.LockUserInput).count (Event.LockUserInput n) = l.count n := by
  induction l with
  | nil => simp
  | cons a l ih => simp [List.count_cons, ih]

theorem count_unlock_in_unlocks (l : List Node) (n : Node) :
    (l.map Event.UnlockUserInput).count (Event.UnlockUserInput n) = l.count n := by
  induction l with
  | nil => simp
  | cons a l ih => simp [List.count_cons, ih]

theorem count_lock_in_unlocks (l : List Node) (n : Node) :
    (l.map Event.UnlockUserInput).count (Event.LockUserInput n) = 0 := by
  induction l with
  | nil => simp
  | cons a l ih => simp [List.count_cons, ih]

theorem count_unlock_in_locks (l : List Node) (n : Node) :
    (l.map Event.LockUserInput).count (Event.UnlockUserInput n) = 0 := by
  induction l with
  | nil => simp
  | cons a l ih => simp [List.count_cons, ih]

/-- What `Render` does on a worker whose function table is available. -/
theorem Render_ok (g : Graph) (path : NodeDependency) (w : OpenGLWorker)
    (h : w.functions_ ≠ none) :
    Render g path w = Except.ok (w,
      ((path.node.parent :: g.GetDependencies path.node.parent).map Event.LockUserInput)
        ++ [Event.LockProcessing path.node.parent, Event.UnlockProcessing path.node.parent]
        ++ [Event.glFlush]
        ++ ((path.node.parent :: g.GetDependencies path.node.parent).map Event.UnlockUserInput)
        ++ [Event.glFinish]) := by
  unfold Render RenderAsSibling
  cases hf : w.functions_ with
  | none => exact absurd hf h
  | some f => simp

/-- A trace sorted by phase keeps any earlier phase before any later one. -/
theorem AllBefore_of_sorted (tr : List Event) (a b : Nat) (hab : a < b)
    (h : tr.Pairwise (fun x y => x.phase ≤ y.phase)) : AllBefore a b tr := by
  unfold AllBefore
  refine h.imp ?_
  intro x y hxy hc
  omega

/-- Two phase-sorted traces, the first below a bound and the second above it,
concatenate to a phase-sorted trace. -/
theorem sorted_append_of_bound (l1 l2 : List Event) (k : Nat)
    (h1 : l1.Pairwise (fun x y => x.phase ≤ y.phase))
    (h2 : l2.Pairwise (fun x y => x.phase ≤ y.phase))
    (hb1 : ∀ e ∈ l1, e.phase ≤ k) (hb2 : ∀ e ∈ l2, k ≤ e.phase) :
    (l1 ++ l2).Pairwise (fun x y => x.phase ≤ y.phase) := by
  rw [List.pairwise_append]
  exact ⟨h1, h2, fun x hx y hy => Nat.le_trans (hb1 x hx) (hb2 y hy)⟩

/-- A trace whose events all have the same phase is phase-sorted. -/
theorem sorted_of_const_phase (l : List Event) (k : Nat) (h : ∀ e ∈ l, e.phase = k) :
    l.Pairwise (fun x y => x.phase ≤ y.phase) := by
  induction l with
  | nil => exact List.Pairwise.nil
  | cons a l ih =>
    refine List.Pairwise.cons ?_ (ih (fun e he => h e (List.mem_cons_of_mem a he)))
    intro b hb
    rw [h a (List.mem_cons_self a l), h b (List.mem_cons_of_mem a hb)]

theorem phase_of_locks (l : List Node) : ∀ e ∈ l.map Event.LockUserInput, e.phase = 0 := by
  intro e he
  obtain ⟨n, _, rfl⟩ := List.mem_map.mp he
  rfl

theorem phase_of_unlocks (l : List Node) : ∀ e ∈ l.map Event.UnlockUserInput, e.phase = 3 := by
  intro e he
  obtain ⟨n, _, rfl⟩ := List.mem_map.mp he
  rfl

/-- The calls of a render, in program order, are sorted by phase. -/
theorem render_trace_sorted (l : List Node) (d : Node) :
    (l.map Event.LockUserInput
      ++ [Event.LockProcessing d, Event.UnlockProcessing d]
      ++ [Event.glFlush]
      ++ l.map Event.UnlockUserInput
      ++ [Event.glFinish]).Pairwise (fun x y => x.phase ≤ y.phase) := by
  have hL := phase_of_locks l
  have hU := phase_of_unlocks l
  have hP : ∀ e ∈ [Event.LockProcessing d, Event.UnlockProcessing d], e.phase = 1 := by
    intro e he
    simp only [List.mem_cons, List.mem_singleton, List.not_mem_nil, or_false] at he
    rcases he with rfl | rfl <;> rfl
  have s1 := sorted_append_of_bound _ _ 1 (sorted_of_const_phase _ 0 hL)
    (sorted_of_const_phase _ 1 hP) (fun e he => by rw [hL e he]; decide)
    (fun e he => by rw [hP e he])
  have b1 : ∀ e ∈ l.map Event.LockUserInput
      ++ [Event.LockProcessing d, Event.UnlockProcessing d], e.phase ≤ 1 := by
    intro e he
    rcases List.mem_append.mp he with h | h
    · rw [hL e h]; decide
    · rw [hP e h]
  have s2 := sorted_append_of_bound _ [Event.glFlush] 2 s1
    (sorted_of_const_phase _ 2 (by simp [Event.phase]))
    (fun e he => Nat.le_trans (b1 e he) (by decide)) (by simp [Event.phase])
  have b2 : ∀ e ∈ l.map Event.LockUserInput
      ++ [Event.LockProcessing d, Event.UnlockProcessing d] ++ [Event.glFlush], e.phase ≤ 2 := by
    intro e he
    rcases List.mem_append.mp he with h | h
    · exact Nat.le_trans (b1 e h) (by decide)
    · simp only [List.mem_singleton] at h
      subst h
      decide
  have s3 := sorted_append_of_bound _ (l.map Event.UnlockUserInput) 3 s2
    (sorted_of_const_phase _ 3 hU)
    (fun e he => Nat.le_trans (b2 e he) (by decide)) (fun e he => by rw [hU e he])
  have b3 : ∀ e ∈ l.map Event.LockUserInput
      ++ [Event.LockProcessing d, Event.UnlockProcessing d] ++ [Event.glFlush]
      ++ l.map Event.UnlockUserInput, e.phase ≤ 3 := by
    intro e he
    rcases List.mem_append.mp he with h | h
    · exact Nat.le_trans (b2 e h) (by decide)
    · rw [hU e h]
  exact sorted_append_of_bound _ [Event.glFinish] 4 s3
    (sorted_of_const_phase _ 4 (by simp [Event.phase]))
    (fun e he => Nat.le_trans (b3 e he) (by decide)) (by simp [Event.phase])

/-! The claims. -/

/-- C1: on a worker whose function table is available, `Render` returns, it
calls `LockUserInput` on a node exactly when the node is the destination of
the path or one of its dependencies, and for every node the number of
`LockUserInput` calls and the number of `UnlockUserInput` calls both equal the
number of times the node occurs in the list built from the destination and
its dependencies. -/
theorem Render_user_input_locks (g : Graph) (path : NodeDependency) (w : OpenGLWorker)
    (h : w.functions_ ≠ none) :
    ∃ tr, Render g path w = Except.ok (w, tr) ∧
      (∀ n, Event.LockUserInput n ∈ tr ↔
        (n = path.node.parent ∨ n ∈ g.GetDependencies path.node.parent)) ∧
      (∀ n, Event.UnlockUserInput n ∈ tr ↔ Event.LockUserInput n ∈ tr) ∧
      (∀ n, tr.count (Event.LockUserInput n)
        = (path.node.parent :: g.GetDependencies path.node.parent).count n) ∧
      (∀ n, tr.count (Event.UnlockUserInput n) = tr.count (Event.LockUserInput n)) ∧
      AllBefore 0 3 tr := by
  refine ⟨_, Render_ok g path w h, ?_, ?_, ?_, ?_, ?_⟩
  · intro n
    simp
  · intro n
    simp
  · intro n
    simp only [List.count_append, count_lock_in_locks, count_lock_in_unlocks]
    simp [List.count_cons]
  · intro n
    simp only [List.count_append, count_lock_in_locks, count_lock_in_unlocks,
      count_unlock_in_locks, count_unlock_in_unlocks]
    simp [List.count_cons]
  · exact AllBefore_of_sorted _ 0 3 (by decide) (render_trace_sorted _ _)

/-- C1 witness: the fan-out graph, rendered on an initialised worker. -/
theorem Render_user_input_locks_witness :
    ∃ tr, Render fanGraph (pathTo 0) readyWorker = Except.ok (readyWorker, tr) ∧
      (∀ n, Event.LockUserInput n ∈ tr ↔
        (n = (pathTo 0).node.parent ∨ n ∈ fanGraph.GetDependencies (pathTo 0).node.parent)) ∧
      (∀ n, Event.UnlockUserInput n ∈ tr ↔ Event.LockUserInput n ∈ tr) ∧
      (∀ n, tr.count (Event.LockUserInput n)
        = ((pathTo 0).node.parent :: fanGraph.GetDependencies (pathTo 0).node.parent).count n) ∧
      (∀ n, tr.count (Event.UnlockUserInput n) = tr.count (Event.LockUserInput n)) ∧
      AllBefore 0 3 tr :=
  Render_user_input_locks fanGraph (pathTo 0) readyWorker (by decide)

/-- C2: on an initialised worker (the function table is available) `Render`
returns a trace that is ordered by phase: every `LockUserInput` stands before
every traversal call, the traversal starts with the `LockProcessing` of
`RenderAsSibling`, the one `glFlush` stands after every traversal call and
before every `UnlockUserInput`, and the one `glFinish` stands after every
`UnlockUserInput` and is the last call; no other kind of call occurs. -/
theorem Render_trace_order (g : Graph) (path : NodeDependency) (w : OpenGLWorker)
    (h : w.functions_ ≠ none) :
    ∃ tr, Render g path w = Except.ok (w, tr) ∧
      tr.Pairwise (fun x y => x.phase ≤ y.phase) ∧
      (∀ e ∈ tr, e.phase ≤ 4) ∧
      tr.find? (fun e => e.isProcessing) = some (Event.LockProcessing path.node.parent) ∧
      tr.count Event.glFlush = 1 ∧
      tr.count Event.glFinish = 1 ∧
      tr.getLast? = some Event.glFinish ∧
      AllBefore 0 1 tr ∧ AllBefore 1 2 tr ∧ AllBefore 2 3 tr ∧ AllBefore 3 4 tr ∧
      AllBefore 1 3 tr ∧ AllBefore 0 3 tr := by
  have hs := render_trace_sorted
    (path.node.parent :: g.GetDependencies path.node.parent) path.node.parent
  refine ⟨_, Render_ok g path w h, hs, ?_, ?_, ?_, ?_, ?_,
    AllBefore_of_sorted _ 0 1 (by decide) hs, AllBefore_of_sorted _ 1 2 (by decide) hs,
    AllBefore_of_sorted _ 2 3 (by decide) hs, AllBefore_of_sorted _ 3 4 (by decide) hs,
    AllBefore_of_sorted _ 1 3 (by decide) hs, AllBefore_of_sorted _ 0 3 (by decide) hs⟩
  · intro e he
    simp only [List.mem_append, List.mem_map, List.mem_cons, List.mem_singleton,
      List.not_mem_nil, or_false] at he
    rcases he with (((⟨n, _, rfl⟩ | rfl | rfl) | rfl) | ⟨n, _, rfl⟩) | rfl <;>
      simp [Event.phase]
  · have hnone : List.find? (fun e => e.isProcessing)
        ((path.node.parent :: g.GetDependencies path.node.parent).map Event.LockUserInput)
        = none := by
      rw [List.find?_eq_none]
      intro e he
      obtain ⟨n, _, rfl⟩ := List.mem_map.mp he
      simp [Event.isProcessing]
    simp only [List.append_assoc, List.find?_append, hnone]
    simp [Event.isProcessing]
  · have hl : ∀ l : List Node, (l.map Event.LockUserInput).count Event.glFlush = 0 := by
      intro l
      induction l with
      | nil => simp
      | cons a l ih => simp [List.count_cons, ih]
    have hu : ∀ l : List Node, (l.map Event.UnlockUserInput).count Event.glFlush = 0 := by
      intro l
      induction l with
      | nil => simp
      | cons a l ih => simp [List.count_cons, ih]
    simp only [List.count_append, hl, hu]
    simp [List.count_cons]
  · have hl : ∀ l : List Node, (l.map Event.LockUserInput).count Event.glFinish = 0 := by
      intro l
      induction l with
      | nil => simp
      | cons a l ih => simp [List.count_cons, ih]
    have hu : ∀ l : List Node, (l.map Event.UnlockUserInput).count Event.glFinish = 0 := by
      intro l
      induction l with
      | nil => simp
      | cons a l ih => simp [List.count_cons, ih]
    simp only [List.count_append, hl, hu]
    simp [List.count_cons]
  · exact List.getLast?_concat _

/-- C2 witness: the fan-out graph, rendered on an initialised worker. -/
theorem Render_trace_order_witness :
    ∃ tr, Render fanGraph (pathTo 0) readyWorker = Except.ok (readyWorker, tr) ∧
      tr.Pairwise (fun x y => x.phase ≤ y.phase) ∧
      (∀ e ∈ tr, e.phase ≤ 4) ∧
      tr.find? (fun e => e.isProcessing) = some (Event.LockProcessing (pathTo 0).node.parent) ∧
      tr.count Event.glFlush = 1 ∧
      tr.count Event.glFinish = 1 ∧
      tr.getLast? = some Event.glFinish ∧
      AllBefore 0 1 tr ∧ AllBefore 1 2 tr ∧ AllBefore 2 3 tr ∧ AllBefore 3 4 tr ∧
      AllBefore 1 3 tr ∧ AllBefore 0 3 tr :=
  Render_trace_order fanGraph (pathTo 0) readyWorker (by decide)

/-- C10: `RenderAsSibling` makes exactly two calls, `LockProcessing` and then
`UnlockProcessing`, both on the destination node of the path: each is called
once on the destination and never on another node, no user-input lock is
touched, and the number of processing locks held on every node is the same
after the call as before. -/
theorem RenderAsSibling_processing_lock (dep : NodeDependency) :
    (∀ n, (RenderAsSibling dep).count (Event.LockProcessing n)
      = if n = dep.node.parent then 1 else 0) ∧
    (∀ n, (RenderAsSibling dep).count (Event.UnlockProcessing n)
      = if n = dep.node.parent then 1 else 0) ∧
    (RenderAsSibling dep).Pairwise
      (fun x y => ¬ (x = Event.UnlockProcessing dep.node.parent
        ∧ y = Event.LockProcessing dep.node.parent)) ∧
    (∀ e ∈ RenderAsSibling dep, e.isProcessing = true ∧ e.isUserInput = false) ∧
    (RenderAsSibling dep).length = 2 ∧
    (∀ held, replayProcessing held (RenderAsSibling dep) = held) := by
  refine ⟨?_, ?_, ?_, ?_, rfl, ?_⟩
  · intro n
    by_cases hn : n = dep.node.parent
    · simp [RenderAsSibling, List.count_cons, hn]
    · have hn2 : ¬ dep.node.parent = n := fun h => hn h.symm
      simp [RenderAsSibling, List.count_cons, hn, hn2]
  · intro n
    by_cases hn : n = dep.node.parent
    · simp [RenderAsSibling, List.count_cons, hn]
    · have hn2 : ¬ dep.node.parent = n := fun h => hn h.symm
      simp [RenderAsSibling, List.count_cons, hn, hn2]
  · simp [RenderAsSibling]
  · intro e he
    simp only [RenderAsSibling, List.mem_cons, List.mem_singleton, List.not_mem_nil,
      or_false] at he
    rcases he with rfl | rfl <;> exact ⟨rfl, rfl⟩
  · intro held
    funext m
    simp only [RenderAsSibling, replayProcessing]
    by_cases hm : m = dep.node.parent <;> simp [hm]

/-- C5: when valid parameters `p` are stored by `SetParameters` and then
`Init` creates the context and `FinishInit` makes it current, all three
return, `FinishInit` issues exactly one viewport call, which is
`glViewport(0, 0, p.effective_width, p.effective_height)`, after enabling
blending, and no other viewport call is made in the whole sequence. -/
theorem FinishInit_applies_viewport (p : VideoRenderingParams) (w : OpenGLWorker)
    (hp : p.is_valid = true) :
    ∃ w1 t1 w2 t2 w3 t3,
      SetParameters p w = Except.ok (w1, t1) ∧
      Init true w1 = Except.ok (w2, t2) ∧
      FinishInit true w2 = Except.ok (w3, t3) ∧
      t3.filter Event.isViewport
        = [Event.glViewport 0 0 p.effective_width p.effective_height] ∧
      (t1 ++ t2 ++ t3).filter Event.isViewport
        = [Event.glViewport 0 0 p.effective_width p.effective_height] ∧
      t3 = [Event.makeCurrent true, Event.glEnable GL_BLEND,
        Event.glViewport 0 0 p.effective_width p.effective_height,
        Event.bufferCreate, Event.qDebug] ∧
      w3.video_params_ = p ∧ w3.functions_ ≠ none ∧ w3.buffer_ = true := by
  refine ⟨{ w with video_params_ := p }, [],
    { w with video_params_ := p, ctx_ := CtxPtr.live },
    [Event.newContext, Event.setShareContext, Event.create true,
      Event.moveToThread, Event.qDebug, Event.invokeQueued Slot.FinishInit],
    { w with video_params_ := p, ctx_ := CtxPtr.live,
             functions_ := some QOpenGLFunctions.table, buffer_ := true },
    [Event.makeCurrent true, Event.glEnable GL_BLEND,
      Event.glViewport 0 0 p.effective_width p.effective_height,
      Event.bufferCreate, Event.qDebug],
    rfl, rfl, ?_, ?_, ?_, rfl, rfl, ?_, rfl⟩
  · simp [FinishInit, UpdateViewportFromParams, hp]
  · simp [Event.isViewport]
  · simp [Event.isViewport]
  · simp

/-- C5 witness: 1920 by 1080 on a freshly constructed worker. -/
theorem FinishInit_applies_viewport_witness :
    ∃ w1 t1 w2 t2 w3 t3,
      SetParameters hdParams (OpenGLWorker.new sdParams) = Except.ok (w1, t1) ∧
      Init true w1 = Except.ok (w2, t2) ∧
      FinishInit true w2 = Except.ok (w3, t3) ∧
      t3.filter Event.isViewport
        = [Event.glViewport 0 0 hdParams.effective_width hdParams.effective_height] ∧
      (t1 ++ t2 ++ t3).filter Event.isViewport
        = [Event.glViewport 0 0 hdParams.effective_width hdParams.effective_height] ∧
      t3 = [Event.makeCurrent true, Event.glEnable GL_BLEND,
        Event.glViewport 0 0 hdParams.effective_width hdParams.effective_height,
        Event.bufferCreate, Event.qDebug] ∧
      w3.video_params_ = hdParams ∧ w3.functions_ ≠ none ∧ w3.buffer_ = true :=
  FinishInit_applies_viewport hdParams (OpenGLWorker.new sdParams) rfl

/-- C6: `Init` queues `FinishInit` exactly when `create()` succeeds.  On
success the trace holds one queued `FinishInit` and neither a buffer destroy
nor a context delete, and the new context stays live.  On failure `Init`
ends in the state and with the calls of `Close` run on the worker holding the
new context: buffer destroyed, function table cleared, context deleted, and
no `FinishInit` queued. -/
theorem Init_schedules_iff_created (w : OpenGLWorker) :
    (∃ tr, Init true w = Except.ok ({ w with ctx_ := CtxPtr.live }, tr) ∧
      tr.count (Event.invokeQueued Slot.FinishInit) = 1 ∧
      Event.bufferDestroy ∉ tr ∧ Event.deleteContext ∉ tr) ∧
    (∃ w2 tc tr, Close { w with ctx_ := CtxPtr.live } = Except.ok (w2, tc) ∧
      Init false w = Except.ok (w2, tr) ∧
      tr = [Event.newContext, Event.setShareContext, Event.create false, Event.qWarning] ++ tc ∧
      Event.bufferDestroy ∈ tr ∧ tr.count Event.deleteContext = 1 ∧
      w2.buffer_ = false ∧ w2.functions_ = none ∧ w2.ctx_ = CtxPtr.dangling ∧
      tr.count (Event.invokeQueued Slot.FinishInit) = 0) ∧
    (∀ ok w2 tr, Init ok w = Except.ok (w2, tr) →
      (Event.invokeQueued Slot.FinishInit ∈ tr ↔ ok = true)) := by
  refine ⟨⟨_, rfl, ?_, ?_, ?_⟩, ⟨_, _, _, rfl, rfl, rfl, ?_, ?_, rfl, rfl, rfl, ?_⟩, ?_⟩
  · decide
  · decide
  · decide
  · decide
  · decide
  · decide
  · intro ok w2 tr hInit
    cases ok with
    | true =>
      simp only [Init, Bool.not_true, Bool.false_eq_true, if_false] at hInit
      injection hInit with hInit
      injection hInit with _ htr
      subst htr
      simp
    | false =>
      simp only [Init, Close, Bool.not_false, if_true] at hInit
      injection hInit with hInit
      injection hInit with _ htr
      subst htr
      simp

/-- C6 witness: on a freshly constructed worker both outcomes of `create()`
return, and each trace holds the queued `FinishInit` exactly when it should. -/
theorem Init_schedules_iff_created_witness :
    (Event.invokeQueued Slot.FinishInit ∈
        [Event.newContext, Event.setShareContext, Event.create true,
          Event.moveToThread, Event.qDebug, Event.invokeQueued Slot.FinishInit] ↔ true = true) ∧
    (Event.invokeQueued Slot.FinishInit ∈
        [Event.newContext, Event.setShareContext, Event.create false, Event.qWarning,
          Event.bufferDestroy, Event.deleteContext] ↔ false = true) :=
  ⟨(Init_schedules_iff_created (OpenGLWorker.new hdParams)).2.2 true _ _ rfl,
   (Init_schedules_iff_created (OpenGLWorker.new hdParams)).2.2 false _ _ rfl⟩

/-- C9: when `FinishInit` runs on a live context and `makeCurrent` fails, it
returns with the worker unchanged, having made no GL call and not created
the buffer; if the function table was unavailable before it still is, and
`Render` on that worker does not return (it dereferences the null table). -/
theorem FinishInit_makeCurrent_failure (w : OpenGLWorker) (hc : w.ctx_ = CtxPtr.live) :
    ∃ tr, FinishInit false w = Except.ok (w, tr) ∧
      (∀ e ∈ tr, e.isGL = false) ∧
      Event.bufferCreate ∉ tr ∧
      (w.functions_ = none →
        ∀ g path, Render g path w = Except.error Fault.nullDeref) := by
  refine ⟨[Event.makeCurrent false, Event.qWarning], ?_, ?_, ?_, ?_⟩
  · simp [FinishInit, hc]
  · intro e he
    simp only [List.mem_cons, List.mem_singleton, List.not_mem_nil, or_false] at he
    rcases he with rfl | rfl <;> rfl
  · decide
  · intro hf g path
    simp [Render, hf]

/-- C9 witness: a worker whose context was created and whose second phase
fails. -/
theorem FinishInit_makeCurrent_failure_witness :
    ∃ tr, FinishInit false createdWorker = Except.ok (createdWorker, tr) ∧
      (∀ e ∈ tr, e.isGL = false) ∧
      Event.bufferCreate ∉ tr ∧
      (createdWorker.functions_ = none →
        ∀ g path, Render g path createdWorker = Except.error Fault.nullDeref) :=
  FinishInit_makeCurrent_failure createdWorker rfl

/-- C3 (the code at the failing input): `Init` on a freshly constructed
worker with `create()` failing returns with `ctx_` still holding the address
of the deleted context, so `IsStarted` answers true; this holds from every
worker state. -/
theorem Init_failure_leaves_IsStarted_true :
    (∃ w tr, Init false (OpenGLWorker.new hdParams) = Except.ok (w, tr) ∧
      w.ctx_ = CtxPtr.dangling ∧ IsStarted w = true) ∧
    (∀ w0 : OpenGLWorker, ∃ w tr, Init false w0 = Except.ok (w, tr) ∧
      w.ctx_ = CtxPtr.dangling ∧ IsStarted w = true) :=
  ⟨⟨_, _, rfl, rfl, rfl⟩, fun _ => ⟨_, _, rfl, rfl, rfl⟩⟩

/-- C4 (the code at the failing input): on an initialised worker
`SetParameters` stores the new parameters and makes no call at all, so no
`glViewport` is issued; the same holds for every worker and every
parameters value. -/
theorem SetParameters_issues_no_viewport :
    SetParameters sdParams readyWorker
      = Except.ok ({ readyWorker with video_params_ := sdParams }, []) ∧
    readyWorker.functions_ ≠ none ∧ sdParams.is_valid = true ∧
    (∀ (p : VideoRenderingParams) (w : OpenGLWorker), ∃ w2,
      SetParameters p w = Except.ok (w2, []) ∧ w2.video_params_ = p) :=
  ⟨rfl, by decide, rfl, fun _ _ => ⟨_, rfl, rfl⟩⟩

/-- C7 (the code at the failing input): `Close` on an initialised worker
deletes the context and leaves `ctx_` dangling, and a second `Close` deletes
that same address again; likewise `Close` after an `Init` whose context
creation failed, and a second `Close` from every state with a live
context. -/
theorem Close_twice_deletes_twice :
    (∃ w tr, Close readyWorker = Except.ok (w, tr) ∧ w.ctx_ = CtxPtr.dangling ∧
      w.functions_ = none ∧ w.buffer_ = false ∧
      Close w = Except.error Fault.doubleDelete) ∧
    (Init false (OpenGLWorker.new hdParams)).andThen Close
      = Except.error Fault.doubleDelete ∧
    (∀ w : OpenGLWorker, (Close { w with ctx_ := CtxPtr.live }).andThen Close
      = Except.error Fault.doubleDelete) ∧
    (∀ w : OpenGLWorker, (Close { w with ctx_ := CtxPtr.null }).andThen Close
      = Except.ok ({ w with ctx_ := CtxPtr.null, functions_ := none, buffer_ := false },
          [Event.bufferDestroy, Event.bufferDestroy])) :=
  ⟨⟨_, _, rfl, rfl, rfl, rfl, rfl⟩, rfl, fun _ => rfl, fun _ => rfl⟩

/-- C8 (the code at the failing input): in the fan-out graph, where node 0
has two inputs connected to the outputs of nodes 1 and 2, rendering the path
to node 0 touches the processing lock of node 0 only; nodes 1 and 2 get no
processing-lock call. -/
theorem Render_fanout_skips_upstream :
    fanGraph.inputs 0 = [some 1, some 2] ∧
    Render fanGraph (pathTo 0) readyWorker = Except.ok (readyWorker,
      [Event.LockUserInput 0, Event.LockUserInput 1, Event.LockUserInput 2,
       Event.LockProcessing 0, Event.UnlockProcessing 0,
       Event.glFlush,
       Event.UnlockUserInput 0, Event.UnlockUserInput 1, Event.UnlockUserInput 2,
       Event.glFinish]) ∧
    RenderAsSibling (pathTo 0) = [Event.LockProcessing 0, Event.UnlockProcessing 0] ∧
    Event.LockProcessing 1 ∉ RenderAsSibling (pathTo 0) ∧
    Event.LockProcessing 2 ∉ RenderAsSibling (pathTo 0) :=
  ⟨rfl, rfl, rfl, by decide, by decide⟩

end Olive
